import Mathlib

/-!
Verification of the ReasonPy repository's execution-tool layer.

The development shallowly embeds the two Python modules that hold the
repository's original logic:

* `src/agent/graph.py` — the local evaluator wrapper `run_python`, which
  rewrites matplotlib plotting calls before handing the code string to a
  persistent in-process REPL;
* `src/agent/e2b_graph.py` — the remote sandbox wrapper
  `E2BCodeInterpreter` (`execute_code`, `close`) and the tool
  `install_and_run_python` that formats its result record.

External effects (the REPL, the remote sandbox API) are modelled as
oracles: functions from the request string to `Except String _`, where
`Except.error msg` stands for a raised Python exception whose `str` is
`msg`.  Python dictionaries with varying key sets are modelled as a
record of `Option`-valued fields, `none` meaning the key is absent.
-/

namespace ReasonPy

/-! ### Python string primitives

Python's `pat in s`, `s.replace(old, new)` and `s.lower()` are embedded
as executable functions on the character list underlying a `String`. -/

/-- Scan for `pat` as a contiguous block at each position of the list. -/
def containsAux (pat : List Char) : List Char → Bool
  | [] => pat.isEmpty
  | c :: rest => List.isPrefixOf pat (c :: rest) || containsAux pat rest

/-- Python's substring test `pat in s`. -/
def containsSub (s pat : String) : Bool :=
  containsAux pat.toList s.toList

/-- One fuel-indexed pass of Python's `str.replace`: scan left to right,
replace each non-overlapping occurrence of `pat` (assumed non-empty),
and continue after the replaced occurrence.  The fuel is an upper bound
on the number of characters consumed, so `fuel = s.length` is enough. -/
def replaceFuel (pat rep : List Char) : Nat → List Char → List Char
  | _, [] => []
  | 0, s => s
  | Nat.succ fuel, c :: rest =>
    if List.isPrefixOf pat (c :: rest) then
      rep ++ replaceFuel pat rep fuel (List.drop (pat.length - 1) rest)
    else
      c :: replaceFuel pat rep fuel rest

/-- Python's `s.replace(pat, rep)` for a non-empty pattern (the only use
in this repository is the non-empty pattern `"plt.show()"`). -/
def pyReplace (s pat rep : String) : String :=
  if pat.toList = [] then s
  else String.mk (replaceFuel pat.toList rep.toList s.toList.length s.toList)

/-- Python's `s.lower()` (ASCII case folding, which covers the only use
`package_name.lower()` compared against the ASCII literal `"none"`). -/
def pyLower (s : String) : String :=
  String.mk (s.toList.map Char.toLower)

/-! ### `src/agent/graph.py` — the local evaluator wrapper -/

/-- `artifacts_dir` of `run_python` in `graph.py`. -/
def artifactsDir : String := "./src/agent/artifacts"

/-- `plot_path = f"{artifacts_dir}/figure.png"` in `graph.py`. -/
def plotPath : String := artifactsDir ++ "/figure.png"

/-- A single-quote character, as it appears inside the Python snippets
that `run_python` splices into the user code. -/
def squote : String := String.singleton (Char.ofNat 39)

/-- The save-and-report snippet `run_python` substitutes for
`plt.show()` (and appends when no saving mechanism exists), with the
f-string placeholders already resolved to `plot_path`:
`plt.savefig(<plot_path>)` on one line, `print(...)` on the next. -/
def saveSnippet : String :=
  "plt.savefig(" ++ squote ++ plotPath ++ squote ++ ")\n" ++
    "print(" ++ squote ++ "Figure saved to " ++ plotPath ++ squote ++ ")"

/-- The guard of the rewriting block in `run_python`:
`"import matplotlib" in code or "import plt" in code or
"from matplotlib" in code`. -/
def hasMatplotlibMarker (code : String) : Bool :=
  containsSub code "import matplotlib" || containsSub code "import plt" ||
    containsSub code "from matplotlib"

/-- The code rewriting performed by `run_python` before execution:
if the matplotlib-import guard holds, replace every `plt.show()` by the
save-and-report snippet; otherwise, if `plt` occurs and `savefig` does
not, append the snippet on a new line; otherwise leave the code alone. -/
def rewriteCode (code : String) : String :=
  if hasMatplotlibMarker code then
    if containsSub code "plt.show()" then
      pyReplace code "plt.show()" saveSnippet
    else if containsSub code "plt" && !containsSub code "savefig" then
      code ++ "\n" ++ saveSnippet
    else
      code
  else
    code

/-- The `try`/`except` of `run_python`: return the REPL's output, or
`"Error: " ++ str(e)` when the call raised. -/
def replWrap (repl : String → Except String String) (s : String) : String :=
  match repl s with
  | Except.ok out => out
  | Except.error e => "Error: " ++ e

/-- `run_python(code)` of `graph.py`, with the in-process REPL passed as
an oracle `repl` (the `os.makedirs` call touches only the filesystem and
is not modelled; an exception from it would be caught by the same
`except` arm modelled in `replWrap`). -/
def run_python (repl : String → Except String String) (code : String) : String :=
  replWrap repl (rewriteCode code)

/-! ### `src/agent/e2b_graph.py` — the remote sandbox wrapper

`E2BCodeInterpreter` holds `self.sandbox`, which is `None` when the
`E2B_API_KEY` credential is missing or sandbox creation raised, and a
live `Sandbox` object otherwise.  The live object's remote methods
`commands.run`, `run_code` and `close` are modelled as oracle fields of
`SandboxBehavior`; `Except.error msg` stands for a raised exception. -/

/-- The result object of the remote `sandbox.commands.run` call
(`execute_code` reads only its `stdout`; `stderr` is carried to record
that the code never reads it). -/
structure CommandResult where
  stdout : String
  stderr : String
deriving DecidableEq

/-- The result object of the remote `sandbox.run_code` call:
`execute_code` reads `execution.text` and `execution.error` (the latter
is `None` on success, otherwise an error object rendered by its
message). -/
structure Execution where
  text : String
  error : Option String
deriving DecidableEq

/-- Oracle model of a live E2B `Sandbox` object: what each remote call
returns, `Except.error msg` standing for a raised exception with
message `msg`. -/
structure SandboxBehavior where
  runCommand : String → Except String CommandResult
  runCode : String → Except String Execution
  closeResult : Except String Unit

/-- One Python dictionary returned by `execute_code`.  Each field is
`none` exactly when the corresponding key is absent from the dictionary
on that return path. -/
structure ExecRecord where
  stdout : Option String
  stderr : Option String
  install_output : Option String
  error : Option String
  success : Option Bool
deriving DecidableEq

/-- The fixed message of the uninitialized-sandbox branch. -/
def notInitMsg : String := "E2B sandbox not initialized. Check your API key."

/-- The dictionary returned when `self.sandbox` is `None`:
`{"error": notInitMsg, "stdout": "", "stderr": "", "success": False}`. -/
def notInitRecord : ExecRecord :=
  { stdout := some "", stderr := some "", install_output := none,
    error := some notInitMsg, success := some false }

/-- The dictionary returned by the `except` arm of `execute_code`:
`{"error": str(e), "stdout": "", "stderr": str(e), "success": False}`. -/
def exceptionRecord (e : String) : ExecRecord :=
  { stdout := some "", stderr := some e, install_output := none,
    error := some e, success := some false }

/-- The guard `package_name and package_name.lower() != "none"` of
`execute_code`: `None` and the empty string are falsy, and the
case-insensitive sentinel `"none"` is excluded. -/
def needsInstall (packageName : Option String) : Bool :=
  match packageName with
  | none => false
  | some p => !(p == "") && !(pyLower p == "none")

/-- One remote call issued by `execute_code`: a `sandbox.commands.run`
shell command or a `sandbox.run_code` execution. -/
inductive RemoteCall where
  | command (s : String)
  | code (s : String)
deriving DecidableEq

/-- `E2BCodeInterpreter.execute_code(code, package_name)` together with
the ordered list of remote calls it issues.  Branches, in source order:
the `self.sandbox is None` early return; the optional blocking
`pip install` (its `stdout` kept as `install_output`); the
`run_code` call; the structured success dictionary (whose
`install_output` entry re-tests the install guard, giving `""` when no
install ran); and the `except` arm converting any raised exception. -/
def execute_code_calls (sandbox : Option SandboxBehavior) (code : String)
    (packageName : Option String) : ExecRecord × List RemoteCall :=
  match sandbox with
  | none => (notInitRecord, [])
  | some sb =>
    if needsInstall packageName then
      match sb.runCommand ("pip install " ++ packageName.getD "") with
      | Except.error e =>
        (exceptionRecord e, [RemoteCall.command ("pip install " ++ packageName.getD "")])
      | Except.ok installResult =>
        match sb.runCode code with
        | Except.error e =>
          (exceptionRecord e,
           [RemoteCall.command ("pip install " ++ packageName.getD ""), RemoteCall.code code])
        | Except.ok execution =>
          ({ stdout := some execution.text, stderr := none,
             install_output := some installResult.stdout,
             error := some (execution.error.getD ""),
             success := some execution.error.isNone },
           [RemoteCall.command ("pip install " ++ packageName.getD ""), RemoteCall.code code])
    else
      match sb.runCode code with
      | Except.error e => (exceptionRecord e, [RemoteCall.code code])
      | Except.ok execution =>
        ({ stdout := some execution.text, stderr := none,
           install_output := some "",
           error := some (execution.error.getD ""),
           success := some execution.error.isNone },
         [RemoteCall.code code])

/-- `E2BCodeInterpreter.execute_code`, returning just the dictionary. -/
def execute_code (sandbox : Option SandboxBehavior) (code : String)
    (packageName : Option String) : ExecRecord :=
  (execute_code_calls sandbox code packageName).1

/-- `E2BCodeInterpreter.close()`: when no sandbox is stored it does
nothing; otherwise it calls `sandbox.close()` under `try`/`except`.  The
result is the value of `self.sandbox` afterwards (the method never
assigns to it), wrapped in `Except` to record whether `close` itself can
raise. -/
def close (sandbox : Option SandboxBehavior) : Except String (Option SandboxBehavior) :=
  match sandbox with
  | none => Except.ok none
  | some sb =>
    match sb.closeResult with
    | Except.ok _ => Except.ok (some sb)
    | Except.error _ => Except.ok (some sb)

/-! ### `install_and_run_python` — tool-call formatting -/

/-- Python truthiness of `result.get(key)` for a string-valued field:
false when the key is absent (`get` returns `None`) or the value is the
empty string. -/
def truthy (v : Option String) : Bool :=
  match v with
  | none => false
  | some s => !(s == "")

/-- The formatting loop of `install_and_run_python`: collect the
installation, execution and error sections in that order, keeping a
section exactly when `result.get(...)` is truthy, then join the parts
with `"\n\n"`. -/
def formatResult (r : ExecRecord) : String :=
  String.intercalate "\n\n"
    ((if truthy r.install_output then
        ["Package installation output:\n" ++ r.install_output.getD ""] else [])
      ++ (if truthy r.stdout then
        ["Code execution output:\n" ++ r.stdout.getD ""] else [])
      ++ (if truthy r.error then
        ["Error:\n" ++ r.error.getD ""] else []))

/-- The tool `install_and_run_python(package_name, code)`: run
`execute_code` on the singleton interpreter (whose stored sandbox is
passed here explicitly) and format the resulting dictionary. -/
def install_and_run_python (sandbox : Option SandboxBehavior)
    (packageName code : String) : String :=
  formatResult (execute_code sandbox code (some packageName))

/-- Spec-side formatting for comparison with `formatResult`: a single
string concatenating, in this order and separated by blank lines, an
installation section, an execution section and an error section, each
included exactly when the corresponding field value is non-empty. -/
def specFormat (installOut out err : String) : String :=
  String.intercalate "\n\n"
    ((if installOut ≠ "" then ["Package installation output:\n" ++ installOut] else [])
      ++ (if out ≠ "" then ["Code execution output:\n" ++ out] else [])
      ++ (if err ≠ "" then ["Error:\n" ++ err] else []))

/-- The field names present in a record, in the fixed enumeration order
stdout, stderr, install_output, error, success. -/
def fieldNames (r : ExecRecord) : List String :=
  (if r.stdout.isSome then ["stdout"] else [])
    ++ (if r.stderr.isSome then ["stderr"] else [])
    ++ (if r.install_output.isSome then ["install_output"] else [])
    ++ (if r.error.isSome then ["error"] else [])
    ++ (if r.success.isSome then ["success"] else [])

/-- Predicate for `RemoteCall.command` calls, used to count install
attempts. -/
def isCommandCall : RemoteCall → Bool
  | RemoteCall.command _ => true
  | RemoteCall.code _ => false

/-- Predicate for `RemoteCall.code` calls, used to count code-execution
attempts. -/
def isCodeCall : RemoteCall → Bool
  | RemoteCall.command _ => false
  | RemoteCall.code _ => true

/-! ### Concrete sandbox behaviours used to instantiate the theorems -/

/-- A sandbox whose remote install call raises and whose code execution
would succeed. -/
def sbInstallCrash : SandboxBehavior :=
  { runCommand := fun _ => Except.error "pip install failed",
    runCode := fun _ => Except.ok { text := "ran", error := none },
    closeResult := Except.ok () }

/-- A sandbox on which both remote calls succeed. -/
def sbOk : SandboxBehavior :=
  { runCommand := fun _ => Except.ok { stdout := "installed", stderr := "" },
    runCode := fun _ => Except.ok { text := "out", error := none },
    closeResult := Except.ok () }

/-- A sandbox whose install call succeeds but whose code execution
raises. -/
def sbCodeCrash : SandboxBehavior :=
  { runCommand := fun _ => Except.ok { stdout := "ok", stderr := "" },
    runCode := fun _ => Except.error "kernel died",
    closeResult := Except.ok () }

/-! ## Claims -/

/-- Claim C1: when no sandbox was created (`self.sandbox` is `None`),
every `execute_code(code, package_name)` call returns a record with
`success = False` and `error` equal to the fixed message
"E2B sandbox not initialized. Check your API key.", regardless of the
`code` and `package_name` arguments. -/
theorem c1_uninitialized_fixed_error (code : String) (packageName : Option String) :
    (execute_code none code packageName).success = some false ∧
    (execute_code none code packageName).error = some notInitMsg :=
  ⟨rfl, rfl⟩

/-- Claim C2, counterexample: the code string `"plt.show()"` contains
the blocking plot-display call, yet `run_python` executes it unchanged —
the string handed to the REPL (returned verbatim here by an
identity-like REPL oracle) still contains `plt.show()`, because the
rewriting block only fires when the code also contains one of the
matplotlib import markers. -/
theorem c2_show_not_always_rewritten :
    run_python (fun s => Except.ok s) "plt.show()" = "plt.show()" ∧
    containsSub (rewriteCode "plt.show()") "plt.show()" = true :=
  ⟨rfl, by decide⟩

/-- Claim C2 (amended): for every code string passed to `run_python`
that contains one of the matplotlib import markers
(`"import matplotlib"`, `"import plt"`, `"from matplotlib"`) and
contains `"plt.show()"`, the string actually executed is the code with
every occurrence of `plt.show()` replaced by the save-to-artifacts call
followed by a print reporting that path, and it is this rewritten
string that reaches the REPL. -/
theorem c2_show_rewritten_with_marker (repl : String → Except String String) (code : String)
    (hmark : hasMatplotlibMarker code = true)
    (hshow : containsSub code "plt.show()" = true) :
    rewriteCode code = pyReplace code "plt.show()" saveSnippet ∧
    run_python repl code = replWrap repl (pyReplace code "plt.show()" saveSnippet) := by
  have h1 : rewriteCode code = pyReplace code "plt.show()" saveSnippet := by
    simp [rewriteCode, hmark, hshow]
  exact ⟨h1, by simp [run_python, h1]⟩

/-- Claim C2, witness: the amended theorem applied to a concrete code
string carrying both the import marker and the blocking call. -/
theorem c2_show_rewritten_with_marker_witness :
    rewriteCode "import matplotlib.pyplot as plt\nplt.show()" =
      pyReplace "import matplotlib.pyplot as plt\nplt.show()" "plt.show()" saveSnippet ∧
    run_python (fun s => Except.ok s) "import matplotlib.pyplot as plt\nplt.show()" =
      replWrap (fun s => Except.ok s)
        (pyReplace "import matplotlib.pyplot as plt\nplt.show()" "plt.show()" saveSnippet) :=
  c2_show_rewritten_with_marker (fun s => Except.ok s)
    "import matplotlib.pyplot as plt\nplt.show()" (by decide) (by decide)

/-- Claim C3, counterexample: on a sandbox whose remote install call
raises, `execute_code` with a package name issues only the install call
(the code-execution call is never attempted), and the returned record
has no `install_output` key at all — the failure surfaces in `error`
instead. -/
theorem c3_install_failure_not_reported_in_install_output :
    (execute_code_calls (some sbInstallCrash) "print(1)" (some "numpy")).2 =
      [RemoteCall.command "pip install numpy"] ∧
    (execute_code_calls (some sbInstallCrash) "print(1)" (some "numpy")).1.install_output =
      none ∧
    (execute_code_calls (some sbInstallCrash) "print(1)" (some "numpy")).1.error =
      some "pip install failed" := by
  refine ⟨?_, ?_, ?_⟩ <;> decide

/-- Claim C3 (amended): with a sandbox present and an install-triggering
package name, if the remote install call raises then `execute_code`
aborts — it returns the caught-exception record (failure in `error`,
`success = False`, no `install_output` key) and the code-execution step
is not attempted: the only remote call issued is the install command. -/
theorem c3_install_exception_aborts (sb : SandboxBehavior) (code p e : String)
    (hneed : needsInstall (some p) = true)
    (hfail : sb.runCommand ("pip install " ++ p) = Except.error e) :
    execute_code_calls (some sb) code (some p) =
      (exceptionRecord e, [RemoteCall.command ("pip install " ++ p)]) := by
  simp [execute_code_calls, hneed, hfail]

/-- Claim C3, witness: the amended theorem applied to the concrete
sandbox whose install call raises. -/
theorem c3_install_exception_aborts_witness :
    execute_code_calls (some sbInstallCrash) "print(1)" (some "pandas") =
      (exceptionRecord "pip install failed", [RemoteCall.command "pip install pandas"]) :=
  c3_install_exception_aborts sbInstallCrash "print(1)" "pandas" "pip install failed"
    (by decide) rfl

/-- Claim C4: with a sandbox present, any exception raised by the remote
install or code-execution call is caught and converted into a returned
record equal to the caught-exception record (`success = False`, `error`
the exception's message); each remote call is issued at most once (no
retries); and `run_python` likewise converts a raised exception into the
string `"Error: " ++ message` instead of propagating it.  (In this
embedding no branch of `execute_code` or `run_python` propagates an
exception: both are total functions into plain result values.) -/
theorem c4_exceptions_caught_no_retry :
    (∀ (sb : SandboxBehavior) (code : String) (pkg : Option String) (e : String),
        needsInstall pkg = true →
        sb.runCommand ("pip install " ++ pkg.getD "") = Except.error e →
        execute_code (some sb) code pkg = exceptionRecord e) ∧
    (∀ (sb : SandboxBehavior) (code : String) (pkg : Option String) (e : String),
        needsInstall pkg = false →
        sb.runCode code = Except.error e →
        execute_code (some sb) code pkg = exceptionRecord e) ∧
    (∀ (sb : SandboxBehavior) (code : String) (pkg : Option String)
        (ir : CommandResult) (e : String),
        needsInstall pkg = true →
        sb.runCommand ("pip install " ++ pkg.getD "") = Except.ok ir →
        sb.runCode code = Except.error e →
        execute_code (some sb) code pkg = exceptionRecord e) ∧
    (∀ (sandbox : Option SandboxBehavior) (code : String) (pkg : Option String),
        List.countP isCommandCall (execute_code_calls sandbox code pkg).2 ≤ 1 ∧
        List.countP isCodeCall (execute_code_calls sandbox code pkg).2 ≤ 1) ∧
    (∀ (repl : String → Except String String) (code e : String),
        repl (rewriteCode code) = Except.error e →
        run_python repl code = "Error: " ++ e) := by
  refine ⟨?_, ?_, ?_, ?_, ?_⟩
  · intro sb code pkg e hneed hfail
    simp [execute_code, execute_code_calls, hneed, hfail]
  · intro sb code pkg e hneed hfail
    simp [execute_code, execute_code_calls, hneed, hfail]
  · intro sb code pkg ir e hneed hok hfail
    simp [execute_code, execute_code_calls, hneed, hok, hfail]
  · intro sandbox code pkg
    cases sandbox with
    | none => simp [execute_code_calls]
    | some sb =>
      cases hneed : needsInstall pkg with
      | true =>
        cases hc : sb.runCommand ("pip install " ++ pkg.getD "") with
        | error e =>
          simp [execute_code_calls, hneed, hc, isCommandCall, isCodeCall,
            List.countP_cons, List.countP_nil]
        | ok ir =>
          cases hr : sb.runCode code with
          | error e =>
            simp [execute_code_calls, hneed, hc, hr, isCommandCall, isCodeCall,
              List.countP_cons, List.countP_nil]
          | ok ex =>
            simp [execute_code_calls, hneed, hc, hr, isCommandCall, isCodeCall,
              List.countP_cons, List.countP_nil]
      | false =>
        cases hr : sb.runCode code with
        | error e =>
          simp [execute_code_calls, hneed, hr, isCommandCall, isCodeCall,
            List.countP_cons, List.countP_nil]
        | ok ex =>
          simp [execute_code_calls, hneed, hr, isCommandCall, isCodeCall,
            List.countP_cons, List.countP_nil]
  · intro repl code e h
    simp [run_python, replWrap, h]

/-- Claim C4, witness: each exception-bearing part of the theorem
applied to a concrete sandbox behaviour or REPL oracle. -/
theorem c4_exceptions_caught_no_retry_witness :
    execute_code (some sbInstallCrash) "print(2)" (some "numpy") =
      exceptionRecord "pip install failed" ∧
    execute_code (some sbCodeCrash) "print(2)" (some "none") =
      exceptionRecord "kernel died" ∧
    execute_code (some sbCodeCrash) "print(2)" (some "numpy") =
      exceptionRecord "kernel died" ∧
    run_python (fun _ => Except.error "boom") "x = 1" = "Error: boom" :=
  ⟨c4_exceptions_caught_no_retry.1 sbInstallCrash "print(2)" (some "numpy")
      "pip install failed" (by decide) rfl,
   c4_exceptions_caught_no_retry.2.1 sbCodeCrash "print(2)" (some "none")
      "kernel died" (by decide) rfl,
   c4_exceptions_caught_no_retry.2.2.1 sbCodeCrash "print(2)" (some "numpy")
      { stdout := "ok", stderr := "" } "kernel died" (by decide) rfl rfl,
   c4_exceptions_caught_no_retry.2.2.2.2 (fun _ => Except.error "boom") "x = 1" "boom" rfl⟩

/-- Claim C5, counterexample: the given package name `"none"` triggers
no install step (the only remote call is the code execution), and even
on a fully successful run the returned record carries no `stderr` key,
so the code's stderr is not captured in the record. -/
theorem c5_sentinel_skips_install_and_no_stderr :
    (execute_code_calls (some sbOk) "print(1)" (some "none")).2 =
      [RemoteCall.code "print(1)"] ∧
    (execute_code (some sbOk) "print(1)" (some "numpy")).stderr = none :=
  ⟨by decide, by decide⟩

/-- Claim C5 (amended): with a sandbox present and a package name that
is non-empty and not the case-insensitive sentinel "none", a blocking
install step is performed and its stdout captured before the code is
run (the install command is issued first, then the code execution);
`execute_code` then runs the code and captures its text output and its
error — but no stderr — in the returned record. -/
theorem c5_install_then_run (sb : SandboxBehavior) (code p : String)
    (ir : CommandResult) (ex : Execution)
    (hneed : needsInstall (some p) = true)
    (hinstall : sb.runCommand ("pip install " ++ p) = Except.ok ir)
    (hrun : sb.runCode code = Except.ok ex) :
    execute_code_calls (some sb) code (some p) =
      ({ stdout := some ex.text, stderr := none, install_output := some ir.stdout,
         error := some (ex.error.getD ""), success := some ex.error.isNone },
       [RemoteCall.command ("pip install " ++ p), RemoteCall.code code]) := by
  simp [execute_code_calls, hneed, hinstall, hrun]

/-- Claim C5, witness: the amended theorem applied to the concrete
sandbox on which both remote calls succeed. -/
theorem c5_install_then_run_witness :
    execute_code_calls (some sbOk) "print(1)" (some "numpy") =
      ({ stdout := some "out", stderr := none, install_output := some "installed",
         error := some "", success := some true },
       [RemoteCall.command "pip install numpy", RemoteCall.code "print(1)"]) :=
  c5_install_then_run sbOk "print(1)" "numpy" { stdout := "installed", stderr := "" }
    { text := "out", error := none } (by decide) rfl rfl

/-- Claim C6, counterexample: the code string `"plt.plot(x)"` uses `plt`
and contains neither `plt.show()` nor `savefig`, yet `run_python`
executes it unchanged — no save-to-file call is appended, because the
rewriting block only fires when the code also contains one of the
matplotlib import markers. -/
theorem c6_savefig_not_always_appended :
    containsSub "plt.plot(x)" "plt" = true ∧
    containsSub "plt.plot(x)" "plt.show()" = false ∧
    containsSub "plt.plot(x)" "savefig" = false ∧
    rewriteCode "plt.plot(x)" = "plt.plot(x)" ∧
    containsSub (rewriteCode "plt.plot(x)") "savefig" = false := by
  refine ⟨?_, ?_, ?_, ?_, ?_⟩ <;> decide

/-- Claim C6 (amended): for every code string passed to `run_python`
that contains one of the matplotlib import markers, mentions `plt`, and
contains neither `"plt.show()"` nor `"savefig"`, the save-to-artifacts
call followed by the reporting print is appended on a new line before
execution. -/
theorem c6_savefig_appended_with_marker (code : String)
    (hmark : hasMatplotlibMarker code = true)
    (hshow : containsSub code "plt.show()" = false)
    (hplt : containsSub code "plt" = true)
    (hsave : containsSub code "savefig" = false) :
    rewriteCode code = code ++ "\n" ++ saveSnippet := by
  simp [rewriteCode, hmark, hshow, hplt, hsave]

/-- Claim C6, witness: the amended theorem applied to a concrete code
string with an import marker, a `plt` use, and no saving mechanism. -/
theorem c6_savefig_appended_with_marker_witness :
    rewriteCode "import matplotlib.pyplot as plt\nplt.plot(xs)" =
      "import matplotlib.pyplot as plt\nplt.plot(xs)" ++ "\n" ++ saveSnippet :=
  c6_savefig_appended_with_marker "import matplotlib.pyplot as plt\nplt.plot(xs)"
    (by decide) (by decide) (by decide) (by decide)

/-- Claim C7: for every record returned by `execute_code`, the
`install_and_run_python` tool returns the single string that
concatenates, in this order and separated by blank lines, the
package-installation section, the code-execution section, and the error
section, each included exactly when the corresponding field
(`install_output`, `stdout`, `error`) is present and non-empty
(`specFormat` states this section-by-section description; absent keys
behave like empty values under `result.get`). -/
theorem c7_format_matches_spec (sandbox : Option SandboxBehavior) (packageName code : String) :
    install_and_run_python sandbox packageName code =
      specFormat ((execute_code sandbox code (some packageName)).install_output.getD "")
        ((execute_code sandbox code (some packageName)).stdout.getD "")
        ((execute_code sandbox code (some packageName)).error.getD "") := by
  have key : ∀ r : ExecRecord,
      formatResult r =
        specFormat (r.install_output.getD "") (r.stdout.getD "") (r.error.getD "") := by
    intro r
    rcases r with ⟨o1, o2, o3, o4, o5⟩
    cases o1 <;> cases o3 <;> cases o4 <;>
      simp [formatResult, specFormat, truthy]
  exact key _

/-- Claim C8, counterexample: the uninitialized-sandbox branch of
`execute_code` returns a record with no `install_output` key and with a
`stderr` key, so not every branch returns exactly the fields
stdout, install_output, error, success. -/
theorem c8_uniform_fields_refuted :
    (execute_code none "print(1)" none).install_output = none ∧
    (execute_code none "print(1)" none).stderr = some "" :=
  ⟨rfl, rfl⟩

/-- Claim C8 (amended): the field set of the record returned by
`execute_code` is determined by the branch taken.  The
uninitialized-sandbox branch and every caught-exception branch (install
call raising; code-execution call raising, with or without a preceding
install) return a record with exactly the fields
stdout, stderr, error, success; the successful remote-run branch (with
or without an install step) returns a record with exactly the fields
stdout, install_output, error, success. -/
theorem c8_fields_by_branch :
    (∀ (code : String) (pkg : Option String),
        fieldNames (execute_code none code pkg) =
          ["stdout", "stderr", "error", "success"]) ∧
    (∀ (sb : SandboxBehavior) (code : String) (pkg : Option String) (e : String),
        needsInstall pkg = true →
        sb.runCommand ("pip install " ++ pkg.getD "") = Except.error e →
        fieldNames (execute_code (some sb) code pkg) =
          ["stdout", "stderr", "error", "success"]) ∧
    (∀ (sb : SandboxBehavior) (code : String) (pkg : Option String)
        (ir : CommandResult) (e : String),
        needsInstall pkg = true →
        sb.runCommand ("pip install " ++ pkg.getD "") = Except.ok ir →
        sb.runCode code = Except.error e →
        fieldNames (execute_code (some sb) code pkg) =
          ["stdout", "stderr", "error", "success"]) ∧
    (∀ (sb : SandboxBehavior) (code : String) (pkg : Option String) (e : String),
        needsInstall pkg = false →
        sb.runCode code = Except.error e →
        fieldNames (execute_code (some sb) code pkg) =
          ["stdout", "stderr", "error", "success"]) ∧
    (∀ (sb : SandboxBehavior) (code : String) (pkg : Option String)
        (ir : CommandResult) (ex : Execution),
        needsInstall pkg = true →
        sb.runCommand ("pip install " ++ pkg.getD "") = Except.ok ir →
        sb.runCode code = Except.ok ex →
        fieldNames (execute_code (some sb) code pkg) =
          ["stdout", "install_output", "error", "success"]) ∧
    (∀ (sb : SandboxBehavior) (code : String) (pkg : Option String) (ex : Execution),
        needsInstall pkg = false →
        sb.runCode code = Except.ok ex →
        fieldNames (execute_code (some sb) code pkg) =
          ["stdout", "install_output", "error", "success"]) := by
  refine ⟨?_, ?_, ?_, ?_, ?_, ?_⟩
  · intro code pkg
    rfl
  · intro sb code pkg e hneed hc
    simp [execute_code, execute_code_calls, hneed, hc, fieldNames, exceptionRecord]
  · intro sb code pkg ir e hneed hc hr
    simp [execute_code, execute_code_calls, hneed, hc, hr, fieldNames, exceptionRecord]
  · intro sb code pkg e hneed hr
    simp [execute_code, execute_code_calls, hneed, hr, fieldNames, exceptionRecord]
  · intro sb code pkg ir ex hneed hc hr
    simp [execute_code, execute_code_calls, hneed, hc, hr, fieldNames]
  · intro sb code pkg ex hneed hr
    simp [execute_code, execute_code_calls, hneed, hr, fieldNames]

/-- Claim C8, witness: every part of the branch-to-field-set mapping
applied to a concrete sandbox behaviour that takes that branch. -/
theorem c8_fields_by_branch_witness :
    fieldNames (execute_code none "print(1)" none) =
      ["stdout", "stderr", "error", "success"] ∧
    fieldNames (execute_code (some sbInstallCrash) "print(1)" (some "numpy")) =
      ["stdout", "stderr", "error", "success"] ∧
    fieldNames (execute_code (some sbCodeCrash) "print(1)" (some "numpy")) =
      ["stdout", "stderr", "error", "success"] ∧
    fieldNames (execute_code (some sbCodeCrash) "print(1)" (some "none")) =
      ["stdout", "stderr", "error", "success"] ∧
    fieldNames (execute_code (some sbOk) "print(1)" (some "numpy")) =
      ["stdout", "install_output", "error", "success"] ∧
    fieldNames (execute_code (some sbOk) "print(1)" (some "none")) =
      ["stdout", "install_output", "error", "success"] :=
  ⟨c8_fields_by_branch.1 "print(1)" none,
   c8_fields_by_branch.2.1 sbInstallCrash "print(1)" (some "numpy") "pip install failed"
     (by decide) rfl,
   c8_fields_by_branch.2.2.1 sbCodeCrash "print(1)" (some "numpy")
     { stdout := "ok", stderr := "" } "kernel died" (by decide) rfl rfl,
   c8_fields_by_branch.2.2.2.1 sbCodeCrash "print(1)" (some "none") "kernel died"
     (by decide) rfl,
   c8_fields_by_branch.2.2.2.2.1 sbOk "print(1)" (some "numpy")
     { stdout := "installed", stderr := "" } { text := "out", error := none }
     (by decide) rfl rfl,
   c8_fields_by_branch.2.2.2.2.2 sbOk "print(1)" (some "none")
     { text := "out", error := none } (by decide) rfl⟩

/-- Claim C9: every record returned by `execute_code` whose `success`
field is `True` has the empty string as its `error` field. -/
theorem c9_success_implies_empty_error (sandbox : Option SandboxBehavior) (code : String)
    (pkg : Option String)
    (h : (execute_code sandbox code pkg).success = some true) :
    (execute_code sandbox code pkg).error = some "" := by
  cases sandbox with
  | none => simp [execute_code, execute_code_calls, notInitRecord] at h
  | some sb =>
    cases hneed : needsInstall pkg with
    | true =>
      cases hc : sb.runCommand ("pip install " ++ pkg.getD "") with
      | error e =>
        simp [execute_code, execute_code_calls, hneed, hc, exceptionRecord] at h
      | ok ir =>
        cases hr : sb.runCode code with
        | error e =>
          simp [execute_code, execute_code_calls, hneed, hc, hr, exceptionRecord] at h
        | ok ex =>
          simp [execute_code, execute_code_calls, hneed, hc, hr] at h ⊢
          simp [h]
    | false =>
      cases hr : sb.runCode code with
      | error e =>
        simp [execute_code, execute_code_calls, hneed, hr, exceptionRecord] at h
      | ok ex =>
        simp [execute_code, execute_code_calls, hneed, hr] at h ⊢
        simp [h]

/-- Claim C9, witness: the theorem applied to the concrete sandbox on
which execution succeeds without error. -/
theorem c9_success_implies_empty_error_witness :
    (execute_code (some sbOk) "print(1)" (some "none")).error = some "" :=
  c9_success_implies_empty_error (some sbOk) "print(1)" (some "none") (by decide)

/-- Claim C10: `close` never raises — on every stored-sandbox value,
including a sandbox whose remote `close` call raises, it returns
normally with the stored reference unchanged — and therefore a call to
`execute_code` made after `close` (with a sandbox still present) takes
the remote-execution path: it issues at least one remote call, unlike
the uninitialized branch, which issues none and returns the fixed
not-initialized record. -/
theorem c10_close_never_raises_keeps_sandbox :
    (∀ sandbox, close sandbox = Except.ok sandbox) ∧
    (∀ (sb : SandboxBehavior) (code : String) (pkg : Option String),
        (execute_code_calls (some sb) code pkg).2.isEmpty = false) := by
  constructor
  · intro sandbox
    cases sandbox with
    | none => rfl
    | some sb => cases hc : sb.closeResult <;> simp [close, hc]
  · intro sb code pkg
    cases hneed : needsInstall pkg with
    | true =>
      cases hc : sb.runCommand ("pip install " ++ pkg.getD "") with
      | error e => simp [execute_code_calls, hneed, hc]
      | ok ir =>
        cases hr : sb.runCode code with
        | error e => simp [execute_code_calls, hneed, hc, hr]
        | ok ex => simp [execute_code_calls, hneed, hc, hr]
    | false =>
      cases hr : sb.runCode code with
      | error e => simp [execute_code_calls, hneed, hr]
      | ok ex => simp [execute_code_calls, hneed, hr]

end ReasonPy
